import Mathlib

/-!
Verification of the anomaly-risk pipeline of the voting application:
the edge-function risk scorer (supabase/functions/anomaly-detection/index.ts)
and the session aggregator hook (src/components/WebcamMonitor.tsx,
useAnomalyDetection).
-/

/-- Status tier of a risk report: the string union
of normal, flagged and warning of index.ts. -/
inductive Status where
  | normal
  | warning
  | flagged
deriving DecidableEq, Repr

/-- PriorContext: the `previousState` object sent with each request,
`{ faceDetected: boolean; faceCount: number }` (WebcamMonitor.tsx line 421,
stored from the result of the previous cycle). `faceCount` is kept optional since
the stored result field may be absent in a malformed-payload cycle. -/
structure PriorContext where
  faceDetected : Bool
  faceCount : Option Int
deriving DecidableEq, Repr

/-- RawAnalysis: the object bound to `geminiAnalysis` in index.ts after the
parse stage. Each field is optional because `JSON.parse` may succeed on a
payload that lacks some keys; an absent field behaves as JavaScript
`undefined` in the conditions below. -/
structure RawAnalysis where
  faceCount : Option Int
  cameraBlocked : Option Bool
  highMotion : Option Bool
  environmentStable : Option Bool
  confidence : Option Int
deriving DecidableEq, Repr

/-- Observation: a fully populated classification result, the validated
data-model record (all five fields present). -/
structure Observation where
  faceCount : Nat
  cameraBlocked : Bool
  highMotion : Bool
  environmentStable : Bool
  confidence : Nat
deriving DecidableEq, Repr

/-- Embed a fully populated Observation as the parsed object `geminiAnalysis`
of index.ts (every key present). -/
def Observation.toRaw (o : Observation) : RawAnalysis :=
  { faceCount := some (o.faceCount : Int)
    cameraBlocked := some o.cameraBlocked
    highMotion := some o.highMotion
    environmentStable := some o.environmentStable
    confidence := some (o.confidence : Int) }

/-- JavaScript truthiness of a possibly-undefined boolean field:
`undefined` is falsy. -/
def truthy : Option Bool → Bool
  | some b => b
  | none => false

/-- JavaScript `geminiAnalysis.faceCount > 1` (index.ts line 131):
`undefined > 1` is false. -/
def jsGtOne : Option Int → Bool
  | some n => decide (1 < n)
  | none => false

/-- JavaScript `geminiAnalysis.faceCount === 0` (index.ts line 137):
false when the field is absent. -/
def jsEqZero : Option Int → Bool
  | some n => decide (n = 0)
  | none => false

/-- JavaScript `geminiAnalysis.faceCount >= 1` (index.ts line 180):
`undefined >= 1` is false. -/
def jsGeOne : Option Int → Bool
  | some n => decide (1 ≤ n)
  | none => false

/-- Text inserted by the template literal
`` `Multiple faces detected: ${geminiAnalysis.faceCount}` `` (index.ts
line 133); an absent field would print as `undefined`. -/
def faceCountText : Option Int → String
  | some n => toString n
  | none => "undefined"

/-- Status tiering of index.ts lines 170-176: start at normal,
`riskScore > 50` gives flagged, else `riskScore > 25` gives
warning. -/
def statusOf (riskScore : Nat) : Status :=
  if riskScore > 50 then Status.flagged
  else if riskScore > 25 then Status.warning
  else Status.normal

/-- AnalysisResult: the JSON object returned by the edge function
(index.ts lines 8-17 and 178-187). `faceCount`, `cameraBlocked` and
`highMotion` are echoed raw from the parsed payload. -/
structure AnalysisResult where
  faceCount : Option Int
  faceDetected : Bool
  faceLost : Bool
  cameraBlocked : Option Bool
  highMotion : Option Bool
  anomalyFlags : List String
  riskScore : Nat
  status : Status
deriving DecidableEq, Repr

/-- Risk scoring of index.ts lines 126-187: six independent additive
conditions evaluated in source order, each appending its flag text;
`riskScore` capped at 100 (line 168); `faceLost` is
`previousState?.faceDetected && geminiAnalysis.faceCount === 0` (line 143);
`faceDetected` is `geminiAnalysis.faceCount >= 1` (line 180). -/
def serveScore (g : RawAnalysis) (previousState : Option PriorContext) :
    AnalysisResult :=
  let riskScore : Nat := 0
  let anomalyFlags : List String := []
  let (riskScore, anomalyFlags) :=
    if jsGtOne g.faceCount then
      (riskScore + 40,
       anomalyFlags ++ ["Multiple faces detected: " ++ faceCountText g.faceCount])
    else (riskScore, anomalyFlags)
  let (riskScore, anomalyFlags) :=
    if jsEqZero g.faceCount then
      (riskScore + 20, anomalyFlags ++ ["No face detected"])
    else (riskScore, anomalyFlags)
  let prevFaceDetected :=
    match previousState with
    | some p => p.faceDetected
    | none => false
  let faceLost := prevFaceDetected && jsEqZero g.faceCount
  let (riskScore, anomalyFlags) :=
    if faceLost then
      (riskScore + 30, anomalyFlags ++ ["Face suddenly disappeared"])
    else (riskScore, anomalyFlags)
  let (riskScore, anomalyFlags) :=
    if truthy g.cameraBlocked then
      (riskScore + 30, anomalyFlags ++ ["Camera appears blocked"])
    else (riskScore, anomalyFlags)
  let (riskScore, anomalyFlags) :=
    if truthy g.highMotion then
      (riskScore + 20, anomalyFlags ++ ["Unusual motion detected"])
    else (riskScore, anomalyFlags)
  let (riskScore, anomalyFlags) :=
    if !truthy g.environmentStable then
      (riskScore + 10, anomalyFlags ++ ["Environment instability detected"])
    else (riskScore, anomalyFlags)
  let riskScore := min riskScore 100
  { faceCount := g.faceCount
    faceDetected := jsGeOne g.faceCount
    faceLost := faceLost
    cameraBlocked := g.cameraBlocked
    highMotion := g.highMotion
    anomalyFlags := anomalyFlags
    riskScore := riskScore
    status := statusOf riskScore }

/-- Default-safe response substituted on parse failure
(index.ts lines 117-123). -/
def defaultSafeAnalysis : RawAnalysis :=
  { faceCount := some 1
    cameraBlocked := some false
    highMotion := some false
    environmentStable := some true
    confidence := some 50 }

/-- Parse stage of index.ts lines 104-124: `none` abstracts a reply in which
no `\x7b...\x7d` block was found or `JSON.parse` threw, in which case the
default-safe object is substituted; `some r` is a successfully parsed
payload, used as-is with no field validation. -/
def parseReply : Option RawAnalysis → RawAnalysis
  | none => defaultSafeAnalysis
  | some r => r

/-- Prior-face predicate `previousState?.faceDetected` as a boolean. -/
def prevFace : Option PriorContext → Bool
  | some p => p.faceDetected
  | none => false

/-- Risk score written from the rule table of the spec (section 4.3), for
comparison with `serveScore` from the code: min(100, sum of matched
weights). -/
def specRiskScore (o : Observation) (priorFace : Bool) : Nat :=
  min 100
    ((if o.faceCount > 1 then 40 else 0) +
     ((if o.faceCount = 0 then 20 else 0) +
      ((if priorFace ∧ o.faceCount = 0 then 30 else 0) +
       ((if o.cameraBlocked then 30 else 0) +
        ((if o.highMotion then 20 else 0) +
         (if ¬o.environmentStable then 10 else 0))))))

/-- Flag list written from the rule table of the spec (section 4.3), in the fixed
table order, for comparison with `serveScore` from the code. -/
def specFlags (o : Observation) (priorFace : Bool) : List String :=
  (if o.faceCount > 1 then
    ["Multiple faces detected: " ++ toString o.faceCount] else []) ++
  ((if o.faceCount = 0 then ["No face detected"] else []) ++
   ((if priorFace ∧ o.faceCount = 0 then ["Face suddenly disappeared"] else []) ++
    ((if o.cameraBlocked then ["Camera appears blocked"] else []) ++
     ((if o.highMotion then ["Unusual motion detected"] else []) ++
      (if ¬o.environmentStable then ["Environment instability detected"] else [])))))

/-- Session-aggregator state held by the hook `useAnomalyDetection` in
mutable refs (WebcamMonitor.tsx lines 421-424): `previousStateRef`,
`analysisCountRef`, `flagHistoryRef`, `maxRiskScoreRef`. -/
structure AggState where
  previousState : Option PriorContext
  analysisCount : Nat
  flagHistory : List String
  maxRiskScore : Nat
deriving DecidableEq, Repr

/-- Outcome of `supabase.functions.invoke of anomaly-detection` as seen
by `analyzeFrame`: either a transport/service error (the `error` field set,
or a thrown exception caught at lines 486-495) or the parsed response
body. -/
inductive InvokeResult where
  | error (msg : String)
  | ok (data : AnalysisResult)
deriving DecidableEq, Repr

/-- State transition of `analyzeFrame` (WebcamMonitor.tsx lines 426-496) on
the aggregator refs, paired with its return value. On an error (lines
437-445) or a caught exception (lines 486-495) it returns `null` and
touches no ref; on success it overwrites `previousStateRef` (lines
448-452), increments `analysisCountRef` (line 455), appends the flags of the cycle to `flagHistoryRef` when non-empty (lines 456-458), and takes the max
of `maxRiskScoreRef` with the new score (line 459). -/
def analyzeFrame (s : AggState) : InvokeResult → AggState × Option AnalysisResult
  | InvokeResult.error _ => (s, none)
  | InvokeResult.ok data =>
    ({ previousState := some ⟨data.faceDetected, data.faceCount⟩
       analysisCount := s.analysisCount + 1
       flagHistory :=
         if data.anomalyFlags.isEmpty then s.flagHistory
         else s.flagHistory ++ data.anomalyFlags
       maxRiskScore := max s.maxRiskScore data.riskScore },
     some data)

/-- Initial values of the aggregator refs (WebcamMonitor.tsx lines
421-424): `null`, `0`, `[]`, `0`. -/
def initialAggState : AggState :=
  { previousState := none
    analysisCount := 0
    flagHistory := []
    maxRiskScore := 0 }

/-- State produced by `reset()` (WebcamMonitor.tsx lines 498-511), which
sets `previousStateRef` to `null`, `analysisCountRef` to 0,
`flagHistoryRef` to `[]` and `maxRiskScoreRef` to 0. -/
def resetAgg : AggState :=
  { previousState := none
    analysisCount := 0
    flagHistory := []
    maxRiskScore := 0 }

/-- JavaScript `[...new Set(l)]`: deduplication keeping the first
occurrence of each element, in insertion order. -/
def dedupFirst (l : List String) : List String :=
  l.foldl (fun acc x => if x ∈ acc then acc else acc ++ [x]) []

/-- Snapshot returned by `getVoteRiskData` (WebcamMonitor.tsx lines
513-521). -/
structure VoteRiskData where
  riskScore : Nat
  anomalyFlags : Bool
  flagDetails : List String
  analysisCount : Nat
  isFlagged : Bool
deriving DecidableEq, Repr

/-- `getVoteRiskData` (WebcamMonitor.tsx lines 513-521): reads the refs and
exposes `riskScore = maxRiskScoreRef`, `anomalyFlags = flagHistory
non-empty`, `flagDetails = [...new Set(flagHistory)]`, `analysisCount`,
`isFlagged = maxRiskScore > 50`. -/
def getVoteRiskData (s : AggState) : VoteRiskData :=
  { riskScore := s.maxRiskScore
    anomalyFlags := !s.flagHistory.isEmpty
    flagDetails := dedupFirst s.flagHistory
    analysisCount := s.analysisCount
    isFlagged := decide (s.maxRiskScore > 50) }

/-- Fold a sequence of completed invocation outcomes through
`analyzeFrame`, keeping only the aggregator state. -/
def runCycles (s : AggState) (l : List InvokeResult) : AggState :=
  l.foldl (fun s r => (analyzeFrame s r).1) s

/-- Hook-state `environmentStable` set after a successful cycle
(WebcamMonitor.tsx line 468): `!data.cameraBlocked && !data.highMotion`,
with JavaScript truthiness on the echoed raw fields. -/
def hookEnvironmentStable (data : AnalysisResult) : Bool :=
  !truthy data.cameraBlocked && !truthy data.highMotion

/-- Scheduler-relevant state of the `WebcamMonitor` component for one tick
of `captureAndAnalyze` (WebcamMonitor.tsx lines 78-104): whether
`videoRef.current`, `canvasRef.current` and the 2d context exist
(`refsPresent`), whether the component is active (`isActive`), whether
`video.readyState === video.HAVE_ENOUGH_DATA` (`ready`), plus the number of
currently outstanding classification calls and the number started so
far. -/
structure SchedState where
  isActive : Bool
  refsPresent : Bool
  ready : Bool
  inFlight : Nat
  callsStarted : Nat
deriving DecidableEq, Repr

/-- One timer tick running `captureAndAnalyze` (WebcamMonitor.tsx lines
78-104, scheduled by `setTimeout`/`setInterval` at lines 115-130). The only
early returns are line 79 (`!videoRef.current || !canvasRef.current ||
!isActive`) and line 85 (`!ctx || video.readyState !==
video.HAVE_ENOUGH_DATA`); otherwise the tick starts a classification call
(`analyzeFrame`, an awaited network request), leaving it outstanding. No
guard consults the number of calls already in flight. -/
def tick (s : SchedState) : SchedState :=
  if !s.refsPresent || !s.isActive then s
  else if !s.ready then s
  else { s with inFlight := s.inFlight + 1, callsStarted := s.callsStarted + 1 }

/-- Resolution of one outstanding classification call (the awaited
`analyzeFrame` promise settling). -/
def resolveCall (s : SchedState) : SchedState :=
  { s with inFlight := s.inFlight - 1 }

theorem jsGtOne_natCast (fc : Nat) : jsGtOne (some (fc : Int)) = decide (fc > 1) := by
  unfold jsGtOne
  exact decide_eq_decide.mpr (by omega)

theorem jsEqZero_natCast (fc : Nat) : jsEqZero (some (fc : Int)) = decide (fc = 0) := by
  unfold jsEqZero
  exact decide_eq_decide.mpr (by omega)

theorem jsGeOne_natCast (fc : Nat) : jsGeOne (some (fc : Int)) = decide (1 ≤ fc) := by
  unfold jsGeOne
  exact decide_eq_decide.mpr (by omega)

theorem faceCountText_natCast (fc : Nat) : faceCountText (some (fc : Int)) = toString fc := rfl

set_option maxHeartbeats 1600000 in
/-- C1: for every fully populated observation and every prior context, the
risk scorer returns riskScore = min(100, sum of the weights of the matched
conditions of the six-condition table), emits exactly the flag texts of the
matched conditions in the fixed table order, and sets faceDetected to
faceCount >= 1; in particular an observation with faceCount 2 and
cameraBlocked true scores 70 with status flagged, for any prior. -/
theorem serveScore_implements_spec_table (o : Observation) (p : Option PriorContext) :
    (serveScore o.toRaw p).riskScore = specRiskScore o (prevFace p) ∧
    (serveScore o.toRaw p).anomalyFlags = specFlags o (prevFace p) ∧
    (serveScore o.toRaw p).faceDetected = decide (1 ≤ o.faceCount) ∧
    (serveScore (Observation.toRaw (Observation.mk 2 true false true 80)) p).riskScore = 70 ∧
    (serveScore (Observation.toRaw (Observation.mk 2 true false true 80)) p).status =
      Status.flagged := by
  have scenario : ∀ q : Option PriorContext,
      (serveScore (Observation.toRaw (Observation.mk 2 true false true 80)) q).riskScore = 70 ∧
      (serveScore (Observation.toRaw (Observation.mk 2 true false true 80)) q).status =
        Status.flagged := by
    intro q
    rcases q with _ | ⟨pf, pfc⟩
    · exact ⟨rfl, rfl⟩
    · cases pf <;> exact ⟨rfl, rfl⟩
  have main : (serveScore o.toRaw p).riskScore = specRiskScore o (prevFace p) ∧
      (serveScore o.toRaw p).anomalyFlags = specFlags o (prevFace p) ∧
      (serveScore o.toRaw p).faceDetected = decide (1 ≤ o.faceCount) := by
    rcases o with ⟨fc, cb, hm, es, conf⟩
    have hgt := jsGtOne_natCast fc
    have heq := jsEqZero_natCast fc
    have hge := jsGeOne_natCast fc
    have hft := faceCountText_natCast fc
    rcases p with _ | ⟨pf, pfc⟩
    · cases cb <;> cases hm <;> cases es <;>
        by_cases h1 : fc > 1 <;> by_cases h0 : fc = 0 <;>
          simp_all [serveScore, Observation.toRaw, specRiskScore, specFlags, prevFace,
            truthy] <;> (try split_ifs) <;> omega
    · cases pf <;> cases cb <;> cases hm <;> cases es <;>
        by_cases h1 : fc > 1 <;> by_cases h0 : fc = 0 <;>
          simp_all [serveScore, Observation.toRaw, specRiskScore, specFlags, prevFace,
            truthy] <;> (try split_ifs) <;> omega
  exact ⟨main.1, main.2.1, main.2.2, (scenario p).1, (scenario p).2⟩

/-- C2 counterexample: a reply whose payload parses as JSON but lacks every
required field is NOT replaced by the default-safe observation; with no
prior context it scores 10 (environment-instability flag), not 0, refuting
the claim that missing or malformed fields trigger the default
substitution. -/
theorem parseReply_missing_fields_cx :
    parseReply (some (RawAnalysis.mk none none none none none)) ≠ defaultSafeAnalysis ∧
    (serveScore (parseReply (some (RawAnalysis.mk none none none none none))) none).riskScore
      = 10 ∧
    (serveScore (parseReply (some (RawAnalysis.mk none none none none none))) none).anomalyFlags
      = ["Environment instability detected"] := by
  refine ⟨?_, rfl, rfl⟩
  decide

/-- C2 (amended): when the reply contains no well-formed JSON payload (no
brace-delimited block is found, or parsing it throws), the adapter
substitutes the default-safe observation with faceCount 1, cameraBlocked
false, highMotion false, environmentStable true, confidence 50, and the
resulting cycle scores 0 with status normal and no flags, for any prior
context. -/
theorem parseReply_default_on_parse_failure (p : Option PriorContext) :
    parseReply none = defaultSafeAnalysis ∧
    (serveScore (parseReply none) p).riskScore = 0 ∧
    (serveScore (parseReply none) p).status = Status.normal ∧
    (serveScore (parseReply none) p).anomalyFlags = [] := by
  refine ⟨rfl, ?_, ?_, ?_⟩ <;>
    rcases p with _ | ⟨pf, pfc⟩ <;> try rfl
  all_goals cases pf <;> rfl

/-- C3 counterexample: from an active, ready monitor with no outstanding
call, a first tick starts a classification call, and a second tick that
fires while that call is still outstanding is NOT skipped: it starts a
second concurrent call, leaving two in flight. -/
theorem tick_inflight_not_skipped_cx :
    (tick (SchedState.mk true true true 0 0)).inFlight = 1 ∧
    tick (tick (SchedState.mk true true true 0 0)) ≠ tick (SchedState.mk true true true 0 0) ∧
    (tick (tick (SchedState.mk true true true 0 0))).inFlight = 2 ∧
    (tick (tick (SchedState.mk true true true 0 0))).callsStarted = 2 := by
  decide

/-- C3 (amended): the tick guard checks only that the video and canvas refs
are present, the monitor is active, and the video frame is ready; it never
consults whether a classification call is outstanding, so a tick that fires
while a previous call is in flight starts another call and at least two
calls are then concurrently in flight. -/
theorem tick_starts_second_call_inflight (s : SchedState) (h1 : s.refsPresent = true)
    (h2 : s.isActive = true) (h3 : s.ready = true) (h4 : 0 < s.inFlight) :
    (tick s).inFlight = s.inFlight + 1 ∧
    (tick s).callsStarted = s.callsStarted + 1 ∧
    2 ≤ (tick s).inFlight := by
  simp [tick, h1, h2, h3]
  omega

/-- C3 witness: the amended theorem applied to an active, ready state with
one call already outstanding. -/
theorem tick_starts_second_call_inflight_witness :
    (SchedState.mk true true true 1 1).refsPresent = true ∧
    0 < (SchedState.mk true true true 1 1).inFlight ∧
    2 ≤ (tick (SchedState.mk true true true 1 1)).inFlight :=
  ⟨rfl, by decide,
    (tick_starts_second_call_inflight (SchedState.mk true true true 1 1)
      rfl rfl rfl (by decide)).2.2⟩

/-- C4: for every riskScore value, status is flagged iff riskScore > 50,
warning iff 25 < riskScore <= 50, and normal iff riskScore <= 25; in
particular 25 maps to normal and 50 to warning, and the status of every
scorer result is the tier of its riskScore. -/
theorem statusOf_tiering (n : Nat) :
    (statusOf n = Status.flagged ↔ 50 < n) ∧
    (statusOf n = Status.warning ↔ 25 < n ∧ n ≤ 50) ∧
    (statusOf n = Status.normal ↔ n ≤ 25) ∧
    statusOf 25 = Status.normal ∧
    statusOf 50 = Status.warning ∧
    (∀ (g : RawAnalysis) (p : Option PriorContext),
      (serveScore g p).status = statusOf (serveScore g p).riskScore) := by
  have key : (statusOf n = Status.flagged ↔ 50 < n) ∧
      (statusOf n = Status.warning ↔ 25 < n ∧ n ≤ 50) ∧
      (statusOf n = Status.normal ↔ n ≤ 25) := by
    unfold statusOf
    split_ifs with h1 h2 <;> (simp_all; try omega)
  exact ⟨key.1, key.2.1, key.2.2, by decide, by decide, fun g p => rfl⟩

/-- C5: a transport or service error abandons the cycle atomically: the
call returns null (no risk report) and every aggregator ref, previous
state, analysis count, flag history and max risk score, is exactly its
pre-cycle value. -/
theorem analyzeFrame_error_leaves_state (s : AggState) (msg : String) :
    analyzeFrame s (InvokeResult.error msg) = (s, none) ∧
    (analyzeFrame s (InvokeResult.error msg)).1.maxRiskScore = s.maxRiskScore ∧
    (analyzeFrame s (InvokeResult.error msg)).1.flagHistory = s.flagHistory ∧
    (analyzeFrame s (InvokeResult.error msg)).1.analysisCount = s.analysisCount ∧
    (analyzeFrame s (InvokeResult.error msg)).1.previousState = s.previousState :=
  ⟨rfl, rfl, rfl, rfl, rfl⟩

/-- C6 counterexample: two completed cycles that each report the flag "No
face detected" leave flagHistory with that string twice, so the aggregator
does NOT store only the set of distinct flags ever seen. -/
theorem flagHistory_duplicates_cx :
    (runCycles resetAgg
      [InvokeResult.ok (serveScore (Observation.toRaw (Observation.mk 0 false false true 90)) none),
       InvokeResult.ok (serveScore (Observation.toRaw (Observation.mk 0 false false true 90)) none)]).flagHistory =
      ["No face detected", "No face detected"] ∧
    ¬ (runCycles resetAgg
      [InvokeResult.ok (serveScore (Observation.toRaw (Observation.mk 0 false false true 90)) none),
       InvokeResult.ok (serveScore (Observation.toRaw (Observation.mk 0 false false true 90)) none)]).flagHistory.Nodup := by
  refine ⟨rfl, ?_⟩
  decide

theorem dedupFold_nodup (l : List String) :
    ∀ acc : List String, acc.Nodup →
      (l.foldl (fun acc x => if x ∈ acc then acc else acc ++ [x]) acc).Nodup := by
  induction l with
  | nil => intro acc h; simpa using h
  | cons y l ih =>
    intro acc h
    simp only [List.foldl_cons]
    by_cases hy : y ∈ acc
    · simpa [hy] using ih acc h
    · have hn : (acc ++ [y]).Nodup := by
        simp [List.nodup_append, h, List.disjoint_singleton, hy]
      simpa [hy] using ih (acc ++ [y]) hn

theorem dedupFold_mem (l : List String) :
    ∀ (acc : List String) (x : String),
      x ∈ l.foldl (fun acc x => if x ∈ acc then acc else acc ++ [x]) acc ↔
        x ∈ acc ∨ x ∈ l := by
  induction l with
  | nil => intro acc x; simp
  | cons y l ih =>
    intro acc x
    simp only [List.foldl_cons]
    by_cases hy : y ∈ acc
    · rw [if_pos hy, ih]
      constructor
      · rintro (hx | hx)
        · exact Or.inl hx
        · exact Or.inr (List.mem_cons_of_mem _ hx)
      · rintro (hx | hx)
        · exact Or.inl hx
        · rcases List.mem_cons.mp hx with rfl | hx
          · exact Or.inl hy
          · exact Or.inr hx
    · rw [if_neg hy, ih]
      constructor
      · rintro (hx | hx)
        · rcases List.mem_append.mp hx with hx | hx
          · exact Or.inl hx
          · rcases List.mem_singleton.mp hx with rfl
            exact Or.inr (List.mem_cons_self _ _)
        · exact Or.inr (List.mem_cons_of_mem _ hx)
      · rintro (hx | hx)
        · exact Or.inl (List.mem_append.mpr (Or.inl hx))
        · rcases List.mem_cons.mp hx with rfl | hx
          · exact Or.inl (List.mem_append.mpr (Or.inr (List.mem_singleton.mpr rfl)))
          · exact Or.inr hx

/-- C6 (amended): flagHistory accumulates each completed cycle flag list
with duplicates retained, but the flagDetails sequence exposed by the
read-only snapshot is deduplicated (first occurrence kept): it contains no
duplicate strings and holds exactly the distinct flags ever stored. -/
theorem flagDetails_nodup_spans_history (s : AggState) :
    (getVoteRiskData s).flagDetails.Nodup ∧
    (∀ x, x ∈ (getVoteRiskData s).flagDetails ↔ x ∈ s.flagHistory) := by
  constructor
  · exact dedupFold_nodup s.flagHistory [] (by simp)
  · intro x
    have h := dedupFold_mem s.flagHistory [] x
    simpa [getVoteRiskData, dedupFirst] using h

theorem maxRisk_step (s : AggState) (r : InvokeResult) :
    s.maxRiskScore ≤ (analyzeFrame s r).1.maxRiskScore := by
  cases r with
  | error msg => exact le_refl _
  | ok data => exact le_max_left _ _

/-- C7: across any sequence of completed cycles without a reset,
maxRiskScore is non-decreasing, each successful cycle sets it to the max of
the previous value and the new riskScore, and the derived isFlagged of the
snapshot, once true, stays true. -/
theorem maxRiskScore_monotone (s : AggState) (l : List InvokeResult) :
    s.maxRiskScore ≤ (runCycles s l).maxRiskScore ∧
    ((getVoteRiskData s).isFlagged = true →
      (getVoteRiskData (runCycles s l)).isFlagged = true) ∧
    (∀ data, (analyzeFrame s (InvokeResult.ok data)).1.maxRiskScore =
      max s.maxRiskScore data.riskScore) := by
  have key : ∀ (l : List InvokeResult) (s : AggState),
      s.maxRiskScore ≤ (runCycles s l).maxRiskScore := by
    intro l
    induction l with
    | nil => intro s; exact le_refl _
    | cons r l ih =>
      intro s
      exact le_trans (maxRisk_step s r) (ih _)
  refine ⟨key l s, ?_, fun data => rfl⟩
  intro h
  simp only [getVoteRiskData, decide_eq_true_eq] at h ⊢
  exact lt_of_lt_of_le h (key l s)

/-- C7 witness: a state already flagged (maxRiskScore 60) stays flagged
after a further cycle that fails with a transport error. -/
theorem maxRiskScore_monotone_witness :
    (getVoteRiskData (AggState.mk none 0 [] 60)).isFlagged = true ∧
    (getVoteRiskData (runCycles (AggState.mk none 0 [] 60)
      [InvokeResult.error "e"])).isFlagged = true :=
  ⟨by decide,
    (maxRiskScore_monotone (AggState.mk none 0 [] 60) [InvokeResult.error "e"]).2.1
      (by decide)⟩

/-- C8: reset restores the aggregator to its initial values: the same state
the refs start in, with empty flagHistory, analysisCount 0, maxRiskScore 0
and no prior context. -/
theorem resetAgg_restores_initial :
    resetAgg = initialAggState ∧
    resetAgg.flagHistory = [] ∧
    resetAgg.analysisCount = 0 ∧
    resetAgg.maxRiskScore = 0 ∧
    resetAgg.previousState = none :=
  ⟨rfl, rfl, rfl, rfl, rfl⟩

/-- C9: the scorer result is independent of the confidence field: two
parsed payloads that differ only in confidence yield identical results
(riskScore, status, flags, faceDetected, faceLost and all echoed
fields). -/
theorem serveScore_confidence_independent (g : RawAnalysis) (c : Option Int)
    (p : Option PriorContext) :
    serveScore { g with confidence := c } p = serveScore g p := rfl

/-- C10: the environmentStable value the hook exposes after a successful
cycle is derived as not cameraBlocked and not highMotion from the returned
report, independent of the environmentStable field the classifier
reported. -/
theorem hook_environmentStable_derived (o : Observation) (p : Option PriorContext)
    (b : Bool) :
    hookEnvironmentStable (serveScore o.toRaw p) = (!o.cameraBlocked && !o.highMotion) ∧
    hookEnvironmentStable (serveScore (Observation.toRaw { o with environmentStable := b }) p) =
      hookEnvironmentStable (serveScore o.toRaw p) :=
  ⟨rfl, rfl⟩
